import Mathlib

/-!
Verification of the mbed SPI master driver, `src/libraries/mbed/api/SPI.h`.

The header declares the class `SPI` with per-instance configuration members
`_bits`, `_mode`, `_hz`, a static ownership pointer `_owner`, the arbitration
member `aquire` (the source's spelling), configuration setters `format` and
`frequency`, a single-word `write`, the bulk operations `transfer`,
`write_array` and `read_array` in pointer-and-length form, array-reference
template wrappers whose bodies are in the header itself, and an empty
destructor.  The bodies of the non-template member functions live in an
implementation file that is not part of `src/`; each such body is modelled
from the specification, as marked on its definition.

Embedding choices: logical instances are identified by natural numbers; the
per-instance stored configuration (`_bits`, `_mode`, `_hz`) is a total map
`conf`; the static `_owner` pointer is the `owner` field (`none` is the C++
null pointer).  The external register driver is modelled by the applied
hardware configuration `hwConf`, a global count of word exchanges performed,
and a chronological trace of hardware events (configuration writes and
full-duplex word exchanges).  The slave side of the wire is an oracle
`rsp : Nat → Int → Int` giving the response to the n-th exchange as a
function of the word sent.
-/

/-- A hardware event of the external register driver: one configuration
write, or one full-duplex single-word exchange (word sent, word received). -/
inductive Event where
  | config (bits mode hz : Int)
  | exchange (sent recv : Int)
deriving DecidableEq, Repr

/-- Whether an event is a hardware configuration write. -/
def Event.isConfig : Event → Bool
  | .config _ _ _ => true
  | .exchange _ _ => false

/-- Error taxonomy of the specification that is relevant to the modelled
operations: configuration errors from the setters and bulk-length errors
from the bulk operations. -/
inductive SpiError where
  | configError
  | bulkLengthError
deriving DecidableEq, Repr

/-- One instance's stored transmission configuration: the members `_bits`,
`_mode` and `_hz` of class `SPI`. -/
structure Config where
  bits : Int
  mode : Int
  hz : Int
deriving DecidableEq, Repr

/-- The defaults documented in the header: 8 bits, mode 0, 1 MHz. -/
def defaultConfig : Config := ⟨8, 0, 1000000⟩

/-- The whole system state: the static `_owner` pointer, every instance's
stored configuration, and the physical controller (applied configuration,
number of word exchanges performed so far, event trace). -/
structure SPIState where
  owner : Option Nat
  conf : Nat → Config
  hwConf : Option Config
  exchCount : Nat
  events : List Event

/-- Initial state: no owner, nothing applied to hardware, no events;
`conf0` gives each instance's stored configuration. -/
def initState (conf0 : Nat → Config) : SPIState :=
  { owner := none, conf := conf0, hwConf := none, exchCount := 0, events := [] }

/-- Number of hardware configuration writes recorded in the trace. -/
def configCount (s : SPIState) : Nat :=
  (s.events.filter Event.isConfig).length

/-- Modelled from the spec: the external register driver's single-word
full-duplex exchange primitive (`spi_master_write`, declared in
`spi_api.h`, outside `src/`).  The slave's response comes from the oracle
`rsp`, applied to the global exchange count and the word sent. -/
def spi_master_write (rsp : Nat → Int → Int) (value : Int) (s : SPIState) :
    Int × SPIState :=
  (rsp s.exchCount value,
   { s with
      exchCount := s.exchCount + 1,
      events := s.events ++ [Event.exchange value (rsp s.exchCount value)] })

/-- Modelled from the spec: `SPI::aquire` (declared in the header, body in
the missing implementation file).  Compare the instance against the current
owner; if they differ (including the no-owner initial state), apply the
instance's stored configuration to the physical peripheral through the
driver's configuration primitive and record ownership; if they are equal,
do nothing. -/
def SPI.aquire (i : Nat) (s : SPIState) : SPIState :=
  if s.owner = some i then s
  else
    { s with
       owner := some i,
       hwConf := some (s.conf i),
       events := s.events ++
         [Event.config (s.conf i).bits (s.conf i).mode (s.conf i).hz] }

/-- Modelled from the spec: `SPI::format` (body in the missing
implementation file).  Validates that the bit count is within 4–16 and the
clock mode is in {0,1,2,3}; an invalid argument fails the call and changes
nothing; a valid call updates only this instance's stored configuration and
performs no hardware access. -/
def SPI.format (i : Nat) (bits mode : Int) (s : SPIState) :
    Except SpiError Unit × SPIState :=
  if bits < 4 ∨ 16 < bits then (Except.error SpiError.configError, s)
  else if mode < 0 ∨ 3 < mode then (Except.error SpiError.configError, s)
  else
    (Except.ok (),
     { s with
        conf := fun j =>
          if j = i then ⟨bits, mode, (s.conf j).hz⟩ else s.conf j })

/-- Modelled from the spec: `SPI::frequency` (body in the missing
implementation file).  Validates that the frequency is positive; an invalid
argument fails the call and changes nothing; a valid call updates only this
instance's stored frequency and performs no hardware access. -/
def SPI.frequency (i : Nat) (hz : Int) (s : SPIState) :
    Except SpiError Unit × SPIState :=
  if hz ≤ 0 then (Except.error SpiError.configError, s)
  else
    (Except.ok (),
     { s with
        conf := fun j =>
          if j = i then ⟨(s.conf j).bits, (s.conf j).mode, hz⟩ else s.conf j })

/-- Modelled from the spec: the word loop shared by the bulk operations —
exchange each word of the list in order through the driver primitive,
collecting the responses in the same order. -/
def transferLoop (rsp : Nat → Int → Int) : List Int → SPIState → List Int × SPIState
  | [], s => ([], s)
  | w :: ws, s =>
    ((spi_master_write rsp w s).1 ::
       (transferLoop rsp ws (spi_master_write rsp w s).2).1,
     (transferLoop rsp ws (spi_master_write rsp w s).2).2)

/-- Modelled from the spec: `SPI::write` — acquire ownership, then perform
exactly one full-duplex word exchange and return the slave's response. -/
def SPI.write (rsp : Nat → Int → Int) (i : Nat) (value : Int) (s : SPIState) :
    Int × SPIState :=
  spi_master_write rsp value (SPI.aquire i s)

/-- Modelled from the spec: `SPI::transfer` (pointer-and-length form).  A
negative length is rejected before any hardware access; otherwise acquire
ownership once, then exchange the first `len` words in increasing position
order, overwriting them in place with the responses. -/
def SPI.transfer (rsp : Nat → Int → Int) (i : Nat) (values : List Int)
    (len : Int) (s : SPIState) : Except SpiError (List Int) × SPIState :=
  if len < 0 then (Except.error SpiError.bulkLengthError, s)
  else
    (Except.ok
      ((transferLoop rsp (values.take len.toNat) (SPI.aquire i s)).1 ++
        values.drop len.toNat),
     (transferLoop rsp (values.take len.toNat) (SPI.aquire i s)).2)

/-- Modelled from the spec: `SPI::write_array` (pointer-and-length form).
Same iteration and ownership-acquisition discipline as `transfer`, with the
responses discarded. -/
def SPI.write_array (rsp : Nat → Int → Int) (i : Nat) (values : List Int)
    (len : Int) (s : SPIState) : Except SpiError Unit × SPIState :=
  if len < 0 then (Except.error SpiError.bulkLengthError, s)
  else
    (Except.ok (),
     (transferLoop rsp (values.take len.toNat) (SPI.aquire i s)).2)

/-- Modelled from the spec: `SPI::read_array` (pointer-and-length form).
Same iteration and ownership-acquisition discipline; the words sent to the
slave are all zero and the responses overwrite the buffer in place. -/
def SPI.read_array (rsp : Nat → Int → Int) (i : Nat) (values : List Int)
    (len : Int) (s : SPIState) : Except SpiError (List Int) × SPIState :=
  if len < 0 then (Except.error SpiError.bulkLengthError, s)
  else
    (Except.ok
      ((transferLoop rsp (List.replicate len.toNat 0) (SPI.aquire i s)).1 ++
        values.drop len.toNat),
     (transferLoop rsp (List.replicate len.toNat 0) (SPI.aquire i s)).2)

/-- From the header (`SPI::~SPI`, lines 146–147): the destructor body is
empty, so destroying an instance changes nothing — in particular the static
`_owner` pointer is not cleared. -/
def SPI.destructor ( _i : Nat) (s : SPIState) : SPIState := s

/-- From the header (template wrapper, lines 109–112): the array-reference
form of `transfer` delegates to the pointer-and-length form with the
array's own length. -/
def SPI.transferRef (rsp : Nat → Int → Int) (i : Nat) (values : List Int)
    (s : SPIState) : Except SpiError (List Int) × SPIState :=
  SPI.transfer rsp i values (values.length : Int) s

/-- From the header (template wrapper, lines 123–126): the array-reference
form of `write_array` delegates to the pointer-and-length form with the
array's own length. -/
def SPI.writeArrayRef (rsp : Nat → Int → Int) (i : Nat) (values : List Int)
    (s : SPIState) : Except SpiError Unit × SPIState :=
  SPI.write_array rsp i values (values.length : Int) s

/-- From the header (template wrapper, lines 140–143): the array-reference
form of `read_array` delegates to the pointer-and-length form with the
array's own length. -/
def SPI.readArrayRef (rsp : Nat → Int → Int) (i : Nat) (values : List Int)
    (s : SPIState) : Except SpiError (List Int) × SPIState :=
  SPI.read_array rsp i values (values.length : Int) s

/-- Concrete per-instance configuration map used by witnesses. -/
def cEx : Nat → Config := fun _ => defaultConfig

/-- Concrete initial state used by witnesses. -/
def sEx : SPIState := initState cEx

/-- Concrete slave oracle used by witnesses. -/
def rspEx : Nat → Int → Int := fun k w => w + Int.ofNat k

/-- Full characterization of the word loop: the responses collected, and the
resulting state, as functions of the starting exchange count. -/
lemma transferLoop_eq (rsp : Nat → Int → Int) (ws : List Int) :
    ∀ s : SPIState, transferLoop rsp ws s =
      ((List.range ws.length).map (fun k => rsp (s.exchCount + k) (ws.getD k 0)),
       { s with
          exchCount := s.exchCount + ws.length,
          events := s.events ++ (List.range ws.length).map
            (fun k => Event.exchange (ws.getD k 0)
              (rsp (s.exchCount + k) (ws.getD k 0))) }) := by
  induction ws with
  | nil =>
    intro s
    simp [transferLoop]
  | cons w ws ih =>
    intro s
    have hsh : ∀ k : Nat, s.exchCount + 1 + k = s.exchCount + (k + 1) :=
      fun k => by omega
    simp only [transferLoop, spi_master_write, ih, List.length_cons,
      List.range_succ_eq_map, List.map_cons, List.map_map,
      List.getD_cons_zero, List.getD_cons_succ, Nat.add_zero,
      Function.comp_def, Nat.succ_eq_add_one, hsh, List.append_assoc,
      List.singleton_append, Prod.mk.injEq]

/-- After arbitration the instance is always the recorded owner. -/
lemma aquire_owner (i : Nat) (s : SPIState) : (SPI.aquire i s).owner = some i := by
  unfold SPI.aquire
  split_ifs with h
  · exact h
  · rfl

/-- Arbitration is the identity when the instance already owns the bus. -/
lemma aquire_id (i : Nat) (s : SPIState) (h : s.owner = some i) :
    SPI.aquire i s = s := by
  unfold SPI.aquire
  exact if_pos h

/-- Arbitration performs one configuration write on a hand-off and none
otherwise. -/
lemma aquire_configCount (i : Nat) (s : SPIState) :
    configCount (SPI.aquire i s) =
      configCount s + (if s.owner = some i then 0 else 1) := by
  unfold SPI.aquire configCount
  split_ifs with h
  · rfl
  · simp [List.filter_append, Event.isConfig]

/-- A trace extended by word exchanges records no further configuration
writes. -/
lemma filter_isConfig_exchanges (f g : Nat → Int) (l : List Nat) :
    (l.map fun k => Event.exchange (f k) (g k)).filter Event.isConfig = [] := by
  induction l with
  | nil => rfl
  | cons a l ih => simp [Event.isConfig, ih]

/-- The word loop never changes the recorded owner. -/
lemma transferLoop_owner (rsp : Nat → Int → Int) (ws : List Int) :
    ∀ s : SPIState, (transferLoop rsp ws s).2.owner = s.owner := by
  induction ws with
  | nil => intro s; rfl
  | cons w ws ih =>
    intro s
    show (transferLoop rsp ws (spi_master_write rsp w s).2).2.owner = s.owner
    rw [ih]
    rfl

/-- The word loop performs no configuration writes. -/
lemma transferLoop_configCount (rsp : Nat → Int → Int) (ws : List Int) :
    ∀ s : SPIState, configCount (transferLoop rsp ws s).2 = configCount s := by
  induction ws with
  | nil => intro s; rfl
  | cons w ws ih =>
    intro s
    show configCount (transferLoop rsp ws (spi_master_write rsp w s).2).2 =
      configCount s
    rw [ih]
    unfold configCount spi_master_write
    simp [List.filter_append, Event.isConfig]

/-- A nonnegative-length bulk transfer leaves the instance as owner and
performs exactly the configuration writes of its single arbitration step. -/
lemma transfer_post (rsp : Nat → Int → Int) (i : Nat) (values : List Int)
    (len : Int) (s : SPIState) (h : 0 ≤ len) :
    (SPI.transfer rsp i values len s).2.owner = some i ∧
    configCount (SPI.transfer rsp i values len s).2 =
      configCount (SPI.aquire i s) := by
  unfold SPI.transfer
  rw [if_neg (not_lt.mpr h)]
  constructor
  · show (transferLoop rsp (values.take len.toNat) (SPI.aquire i s)).2.owner =
      some i
    rw [transferLoop_owner]
    exact aquire_owner i s
  · show configCount
      (transferLoop rsp (values.take len.toNat) (SPI.aquire i s)).2 =
      configCount (SPI.aquire i s)
    exact transferLoop_configCount rsp _ _

/-- A nonnegative-length bulk transfer performs exactly one configuration
write on a hand-off and none when the caller already owns the bus. -/
lemma transfer_cc (rsp : Nat → Int → Int) (i : Nat) (values : List Int)
    (len : Int) (s : SPIState) (h : 0 ≤ len) :
    configCount (SPI.transfer rsp i values len s).2 =
      configCount s + (if s.owner = some i then 0 else 1) :=
  (transfer_post rsp i values len s h).2.trans (aquire_configCount i s)

/-- Claim C1 (amended): after `aquire(instance)` the instance is always the
current owner; on a hand-off (the prior owner differs, including the
no-owner state) the applied hardware configuration equals the instance's
stored configuration and exactly one configuration write is issued; if the
instance already is the current owner, `aquire` does nothing, so the
applied configuration is left as it was. -/
theorem aquire_ownership (i : Nat) (s : SPIState) :
    (SPI.aquire i s).owner = some i ∧
    (s.owner = some i → SPI.aquire i s = s) ∧
    (s.owner ≠ some i →
      (SPI.aquire i s).hwConf = some (s.conf i) ∧
      (SPI.aquire i s).events = s.events ++
        [Event.config (s.conf i).bits (s.conf i).mode (s.conf i).hz]) := by
  refine ⟨aquire_owner i s, fun h => aquire_id i s h, fun h => ?_⟩
  unfold SPI.aquire
  rw [if_neg h]
  exact ⟨rfl, rfl⟩

/-- Witness for the amended claim C1, on a hand-off from the no-owner
state. -/
theorem aquire_ownership_witness :
    sEx.owner ≠ some 0 ∧
    (SPI.aquire 0 sEx).owner = some 0 ∧
    (SPI.aquire 0 sEx).hwConf = some (sEx.conf 0) :=
  ⟨by decide, (aquire_ownership 0 sEx).1,
   ((aquire_ownership 0 sEx).2.2 (by decide)).1⟩

/-- Reachable state refuting claim C1 as stated: instance 0 acquires the
bus, then reconfigures itself with `format(16, 2)` (lazy, touching no
hardware and no ownership). -/
def c1State : SPIState :=
  (SPI.format 0 16 2 (SPI.aquire 0 sEx)).2

/-- Counterexample to claim C1 as stated: in `c1State` instance 0 is
already the owner, so `aquire` does nothing, and after it completes the
applied hardware configuration (still the default 8-bit mode-0 1 MHz) does
not equal the instance's stored configuration (16-bit mode-2). -/
theorem aquire_stale_config :
    c1State.owner = some 0 ∧
    (SPI.aquire 0 c1State).owner = some 0 ∧
    c1State.conf 0 = ⟨16, 2, 1000000⟩ ∧
    (SPI.aquire 0 c1State).hwConf = some ⟨8, 0, 1000000⟩ ∧
    (SPI.aquire 0 c1State).hwConf ≠ some ((SPI.aquire 0 c1State).conf 0) := by
  decide

/-- Claim C2: for distinct instances `a` and `b` sharing the peripheral,
from the initial no-owner state, the sequence a.transfer, a.transfer,
b.transfer, a.transfer issues exactly 3 hardware configuration writes. -/
theorem transfer_handoff_three (a b : Nat) (c0 : Nat → Config)
    (rsp : Nat → Int → Int) (buf1 buf2 buf3 buf4 : List Int)
    (n1 n2 n3 n4 : Int) (hab : a ≠ b)
    (h1 : 0 ≤ n1) (h2 : 0 ≤ n2) (h3 : 0 ≤ n3) (h4 : 0 ≤ n4) :
    configCount
      (SPI.transfer rsp a buf4 n4
        (SPI.transfer rsp b buf3 n3
          (SPI.transfer rsp a buf2 n2
            (SPI.transfer rsp a buf1 n1 (initState c0)).2).2).2).2 = 3 := by
  have o1 : (SPI.transfer rsp a buf1 n1 (initState c0)).2.owner = some a :=
    (transfer_post rsp a buf1 n1 (initState c0) h1).1
  have o2 : (SPI.transfer rsp a buf2 n2
      (SPI.transfer rsp a buf1 n1 (initState c0)).2).2.owner = some a :=
    (transfer_post rsp a buf2 n2 _ h2).1
  have o3 : (SPI.transfer rsp b buf3 n3
      (SPI.transfer rsp a buf2 n2
        (SPI.transfer rsp a buf1 n1 (initState c0)).2).2).2.owner = some b :=
    (transfer_post rsp b buf3 n3 _ h3).1
  rw [transfer_cc rsp a buf4 n4 _ h4, o3,
      transfer_cc rsp b buf3 n3 _ h3, o2,
      transfer_cc rsp a buf2 n2 _ h2, o1,
      transfer_cc rsp a buf1 n1 _ h1]
  simp [configCount, initState, hab, Ne.symm hab]

/-- Witness for claim C2 at two concrete instances and one-word buffers. -/
theorem transfer_handoff_three_witness :
    (0 : Nat) ≠ 1 ∧ (0 : Int) ≤ 1 ∧
    configCount
      (SPI.transfer rspEx 0 [0] 1
        (SPI.transfer rspEx 1 [0] 1
          (SPI.transfer rspEx 0 [0] 1
            (SPI.transfer rspEx 0 [0] 1 (initState cEx)).2).2).2).2 = 3 :=
  ⟨by decide, by decide,
   transfer_handoff_three 0 1 cEx rspEx [0] [0] [0] [0] 1 1 1 1
     (by decide) (by decide) (by decide) (by decide) (by decide)⟩

/-- Claim C3: a `format` call with an out-of-range bit count or clock mode,
and a `frequency` call with a nonpositive frequency, fail with a
configuration error and leave the whole state — stored configurations,
ownership record and hardware — unchanged. -/
theorem format_frequency_reject (i : Nat) (bits mode hz : Int) (s : SPIState)
    (hf : bits < 4 ∨ 16 < bits ∨ mode < 0 ∨ 3 < mode) (hz0 : hz ≤ 0) :
    SPI.format i bits mode s = (Except.error SpiError.configError, s) ∧
    SPI.frequency i hz s = (Except.error SpiError.configError, s) := by
  constructor
  · unfold SPI.format
    split_ifs with hb hm
    · rfl
    · rfl
    · rcases hf with h | h | h | h
      · exact absurd (Or.inl h) hb
      · exact absurd (Or.inr h) hb
      · exact absurd (Or.inl h) hm
      · exact absurd (Or.inr h) hm
  · unfold SPI.frequency
    rw [if_pos hz0]

/-- Witness for claim C3 at `format(3, 0)` and `frequency(0)`. -/
theorem format_frequency_reject_witness :
    ((3 : Int) < 4 ∨ (16 : Int) < 3 ∨ (0 : Int) < 0 ∨ (3 : Int) < 0) ∧
    (0 : Int) ≤ 0 ∧
    SPI.format 0 3 0 sEx = (Except.error SpiError.configError, sEx) ∧
    SPI.frequency 0 0 sEx = (Except.error SpiError.configError, sEx) :=
  ⟨by decide, by decide,
   (format_frequency_reject 0 3 0 0 sEx (by decide) (by decide)).1,
   (format_frequency_reject 0 3 0 0 sEx (by decide) (by decide)).2⟩

/-- Claim C4: with valid arguments, `format` and `frequency` succeed and
update only the calling instance's stored configuration — every other
instance's configuration, the ownership record, the applied hardware
configuration and the hardware event trace are untouched — and the stored
values are the ones applied at the instance's next hand-off acquisition. -/
theorem format_frequency_lazy (i : Nat) (bits mode hz : Int) (s : SPIState)
    (hb1 : 4 ≤ bits) (hb2 : bits ≤ 16) (hm1 : 0 ≤ mode) (hm2 : mode ≤ 3)
    (hhz : 0 < hz) :
    (SPI.format i bits mode s).1 = Except.ok () ∧
    (SPI.format i bits mode s).2.conf i = ⟨bits, mode, (s.conf i).hz⟩ ∧
    (∀ j, j ≠ i → (SPI.format i bits mode s).2.conf j = s.conf j) ∧
    (SPI.format i bits mode s).2.owner = s.owner ∧
    (SPI.format i bits mode s).2.hwConf = s.hwConf ∧
    (SPI.format i bits mode s).2.events = s.events ∧
    (SPI.frequency i hz s).1 = Except.ok () ∧
    (SPI.frequency i hz s).2.conf i =
      ⟨(s.conf i).bits, (s.conf i).mode, hz⟩ ∧
    (∀ j, j ≠ i → (SPI.frequency i hz s).2.conf j = s.conf j) ∧
    (SPI.frequency i hz s).2.owner = s.owner ∧
    (SPI.frequency i hz s).2.hwConf = s.hwConf ∧
    (SPI.frequency i hz s).2.events = s.events ∧
    (s.owner ≠ some i →
      (SPI.aquire i (SPI.format i bits mode s).2).hwConf =
        some ⟨bits, mode, (s.conf i).hz⟩ ∧
      (SPI.aquire i (SPI.frequency i hz s).2).hwConf =
        some ⟨(s.conf i).bits, (s.conf i).mode, hz⟩) := by
  have hfm : SPI.format i bits mode s =
      (Except.ok (), { s with conf := fun j =>
        if j = i then ⟨bits, mode, (s.conf j).hz⟩ else s.conf j }) := by
    unfold SPI.format
    rw [if_neg (by omega), if_neg (by omega)]
  have hfr : SPI.frequency i hz s =
      (Except.ok (), { s with conf := fun j =>
        if j = i then ⟨(s.conf j).bits, (s.conf j).mode, hz⟩ else s.conf j }) := by
    unfold SPI.frequency
    rw [if_neg (by omega)]
  rw [hfm, hfr]
  refine ⟨rfl, by simp, fun j hj => by simp [hj], rfl, rfl, rfl,
          rfl, by simp, fun j hj => by simp [hj], rfl, rfl, rfl,
          fun h => ⟨?_, ?_⟩⟩
  · simp [SPI.aquire, h]
  · simp [SPI.aquire, h]

/-- Witness for claim C4 at `format(12, 1)` and `frequency(5)` from the
initial state. -/
theorem format_frequency_lazy_witness :
    (4 : Int) ≤ 12 ∧ (12 : Int) ≤ 16 ∧ (0 : Int) ≤ 1 ∧ (1 : Int) ≤ 3 ∧
    (0 : Int) < 5 ∧
    (SPI.format 0 12 1 sEx).1 = Except.ok () ∧
    (SPI.format 0 12 1 sEx).2.conf 0 = ⟨12, 1, (sEx.conf 0).hz⟩ ∧
    (SPI.format 0 12 1 sEx).2.conf 3 = sEx.conf 3 ∧
    (SPI.format 0 12 1 sEx).2.events = sEx.events ∧
    (SPI.frequency 0 5 sEx).2.conf 0 =
      ⟨(sEx.conf 0).bits, (sEx.conf 0).mode, 5⟩ ∧
    (SPI.aquire 0 (SPI.format 0 12 1 sEx).2).hwConf =
      some ⟨12, 1, (sEx.conf 0).hz⟩ := by
  obtain ⟨a1, a2, a3, a4, a5, a6, b1, b2, b3, b4, b5, b6, c⟩ :=
    format_frequency_lazy 0 12 1 5 sEx (by decide) (by decide) (by decide)
      (by decide) (by decide)
  exact ⟨by decide, by decide, by decide, by decide, by decide,
    a1, a2, a3 3 (by decide), a6, b2, (c (by decide)).1⟩

/-- Claim C5: a bulk `transfer` of a buffer of exactly `len ≥ 0` words
acquires ownership exactly once, and then exchanges precisely the original
buffer words in increasing position order; the i-th returned word is the
slave's full-duplex response to the i-th original word. -/
theorem transfer_exchanges (rsp : Nat → Int → Int) (i : Nat) (buf : List Int)
    (len : Int) (s : SPIState) (h0 : 0 ≤ len) (hl : buf.length = len.toNat) :
    SPI.transfer rsp i buf len s =
      (Except.ok ((List.range buf.length).map
          (fun k => rsp ((SPI.aquire i s).exchCount + k) (buf.getD k 0))),
       { SPI.aquire i s with
          exchCount := (SPI.aquire i s).exchCount + buf.length,
          events := (SPI.aquire i s).events ++ (List.range buf.length).map
            (fun k => Event.exchange (buf.getD k 0)
              (rsp ((SPI.aquire i s).exchCount + k) (buf.getD k 0))) }) := by
  have ht : buf.take len.toNat = buf := by
    rw [← hl]; simp
  have hd : buf.drop len.toNat = [] := by
    rw [← hl]; simp
  unfold SPI.transfer
  rw [if_neg (not_lt.mpr h0), ht, hd, transferLoop_eq, List.append_nil]

/-- Witness for claim C5 on the two-word buffer [5, 7]. -/
theorem transfer_exchanges_witness :
    (0 : Int) ≤ 2 ∧ ([5, 7] : List Int).length = (2 : Int).toNat ∧
    SPI.transfer rspEx 0 [5, 7] 2 sEx =
      (Except.ok ((List.range ([5, 7] : List Int).length).map
          (fun k => rspEx ((SPI.aquire 0 sEx).exchCount + k)
            (([5, 7] : List Int).getD k 0))),
       { SPI.aquire 0 sEx with
          exchCount := (SPI.aquire 0 sEx).exchCount +
            ([5, 7] : List Int).length,
          events := (SPI.aquire 0 sEx).events ++
            (List.range ([5, 7] : List Int).length).map
              (fun k => Event.exchange (([5, 7] : List Int).getD k 0)
                (rspEx ((SPI.aquire 0 sEx).exchCount + k)
                  (([5, 7] : List Int).getD k 0))) }) :=
  ⟨by decide, by decide,
   transfer_exchanges rspEx 0 [5, 7] 2 sEx (by decide) (by decide)⟩

/-- The all-zero outgoing buffer reads back zero at every position. -/
lemma replicate_getD (n k : Nat) : (List.replicate n (0 : Int)).getD k 0 = 0 := by
  induction n generalizing k with
  | zero => exact List.getD_nil
  | succ n ih =>
    cases k with
    | zero => simp [List.replicate_succ]
    | succ k => simp [List.replicate_succ, List.getD_cons_succ, ih k]

/-- Claim C6: a bulk `read_array` of a buffer of exactly `len ≥ 0` words
acquires ownership exactly once, sends a zero word at every one of the
`len` exchanges, and overwrites the buffer in order with the responses. -/
theorem read_array_zeros (rsp : Nat → Int → Int) (i : Nat) (buf : List Int)
    (len : Int) (s : SPIState) (h0 : 0 ≤ len) (hl : buf.length = len.toNat) :
    SPI.read_array rsp i buf len s =
      (Except.ok ((List.range buf.length).map
          (fun k => rsp ((SPI.aquire i s).exchCount + k) 0)),
       { SPI.aquire i s with
          exchCount := (SPI.aquire i s).exchCount + buf.length,
          events := (SPI.aquire i s).events ++ (List.range buf.length).map
            (fun k => Event.exchange 0
              (rsp ((SPI.aquire i s).exchCount + k) 0)) }) := by
  have hd : buf.drop len.toNat = [] := by
    rw [← hl]; simp
  unfold SPI.read_array
  rw [if_neg (not_lt.mpr h0), hd, transferLoop_eq, List.append_nil]
  simp only [List.length_replicate, replicate_getD, ← hl]

/-- Witness for claim C6 on a two-word buffer. -/
theorem read_array_zeros_witness :
    (0 : Int) ≤ 2 ∧ ([5, 7] : List Int).length = (2 : Int).toNat ∧
    SPI.read_array rspEx 0 [5, 7] 2 sEx =
      (Except.ok ((List.range ([5, 7] : List Int).length).map
          (fun k => rspEx ((SPI.aquire 0 sEx).exchCount + k) 0)),
       { SPI.aquire 0 sEx with
          exchCount := (SPI.aquire 0 sEx).exchCount +
            ([5, 7] : List Int).length,
          events := (SPI.aquire 0 sEx).events ++
            (List.range ([5, 7] : List Int).length).map
              (fun k => Event.exchange 0
                (rspEx ((SPI.aquire 0 sEx).exchCount + k) 0)) }) :=
  ⟨by decide, by decide,
   read_array_zeros rspEx 0 [5, 7] 2 sEx (by decide) (by decide)⟩

/-- Claim C7: a negative length makes every bulk operation fail with the
bulk-length error and return the state exactly as it was — no ownership
acquisition, no configuration write and no word exchange happen. -/
theorem negative_length_rejected (rsp : Nat → Int → Int) (i : Nat)
    (buf : List Int) (len : Int) (s : SPIState) (h : len < 0) :
    SPI.transfer rsp i buf len s = (Except.error SpiError.bulkLengthError, s) ∧
    SPI.write_array rsp i buf len s =
      (Except.error SpiError.bulkLengthError, s) ∧
    SPI.read_array rsp i buf len s =
      (Except.error SpiError.bulkLengthError, s) := by
  unfold SPI.transfer SPI.write_array SPI.read_array
  rw [if_pos h, if_pos h, if_pos h]
  exact ⟨rfl, rfl, rfl⟩

/-- Witness for claim C7 at length -1. -/
theorem negative_length_rejected_witness :
    (-1 : Int) < 0 ∧
    SPI.transfer rspEx 0 [0] (-1) sEx =
      (Except.error SpiError.bulkLengthError, sEx) ∧
    SPI.write_array rspEx 0 [0] (-1) sEx =
      (Except.error SpiError.bulkLengthError, sEx) ∧
    SPI.read_array rspEx 0 [0] (-1) sEx =
      (Except.error SpiError.bulkLengthError, sEx) :=
  ⟨by decide, negative_length_rejected rspEx 0 [0] (-1) sEx (by decide)⟩

/-- Claim C8: a zero-length bulk call is not an error; it performs the very
same ownership acquisition a non-empty call would perform (so a
configuration write may happen on a hand-off), exchanges no words, and
leaves the buffer unchanged. -/
theorem zero_length_prewarm (rsp : Nat → Int → Int) (i : Nat)
    (buf : List Int) (s : SPIState) :
    SPI.transfer rsp i buf 0 s = (Except.ok buf, SPI.aquire i s) ∧
    SPI.write_array rsp i buf 0 s = (Except.ok (), SPI.aquire i s) ∧
    SPI.read_array rsp i buf 0 s = (Except.ok buf, SPI.aquire i s) := by
  refine ⟨?_, ?_, ?_⟩ <;>
    simp [SPI.transfer, SPI.write_array, SPI.read_array, transferLoop,
      Int.toNat_zero]

/-- Claim C9 counterexample state: instance 0 owns the bus. -/
def c9State : SPIState := SPI.aquire 0 sEx

/-- Counterexample to claim C9 as stated: destroying the owning instance
does not make `currentOwner` none — the destructor body in the header is
empty, so the ownership record still designates the destroyed instance. -/
theorem destructor_keeps_owner :
    c9State.owner = some 0 ∧
    (SPI.destructor 0 c9State).owner = some 0 ∧
    (SPI.destructor 0 c9State).owner ≠ none := by
  decide

/-- Claim C9 (amended): destroying any instance — the current owner
included — leaves the whole state, in particular the ownership record,
unchanged; the stale reference is replaced only by a later acquisition. -/
theorem destructor_noop (i : Nat) (s : SPIState) :
    SPI.destructor i s = s ∧ (SPI.destructor i s).owner = s.owner :=
  ⟨rfl, rfl⟩

/-- Claim C10: each array-reference convenience form is exactly the
corresponding pointer-and-length operation called with the array and its
own length. -/
theorem ref_forms_delegate (rsp : Nat → Int → Int) (i : Nat)
    (values : List Int) (s : SPIState) :
    SPI.transferRef rsp i values s =
      SPI.transfer rsp i values (values.length : Int) s ∧
    SPI.writeArrayRef rsp i values s =
      SPI.write_array rsp i values (values.length : Int) s ∧
    SPI.readArrayRef rsp i values s =
      SPI.read_array rsp i values (values.length : Int) s :=
  ⟨rfl, rfl, rfl⟩
